import Mathlib

/-!
Verification of the row-to-SQL-literal serialization engine of the
`mysqldump` Go package (file `mysqldump.go`).

The Go source is shallowly embedded below.  Runtime `interface\x7b\x7d`
cell values delivered by the database driver become the inductive type
`GoValue`; the per-cell `switch` of `writeTableData` (lines 306-384)
becomes `renderCell`; the per-row loop (lines 299-391) becomes
`serializeRow`; the whole-table loop of `writeTableData` becomes
`writeTableDataModel`; the table loop of `Dump` (lines 175-196) becomes
`dumpLoop`; the table-set resolution of `Dump` (lines 106-109 and
148-172) becomes `resolveTables`; and `getCreateTableSQL` (line 214)
becomes `goCreateTableRewrite`.  Database queries, logging and timing
banners are external collaborators and are not modelled; tables arrive
as pure `TableInfo` records.
-/

/-- The single-quote character (codepoint 39). -/
def qc : Char := Char.ofNat 39

/-- The single-quote character as a one-character string. -/
def qs : String := String.mk [qc]

/-- Tries to match the pattern (first argument) against the front of the
second list; on success returns the remainder after the pattern. -/
def matchAt : List Char → List Char → Option (List Char)
  | [], s => some s
  | _ :: _, [] => none
  | o :: os, c :: cs => if o = c then matchAt os cs else none

/-- Fuel-indexed core of Go `strings.Replace(s, old, new, -1)` for a
non-empty pattern `o :: os`: scans left to right, replacing each
non-overlapping occurrence and continuing after it.  The fuel is always
initialized to the length of the scanned list, which bounds the number
of steps, so the recursion is structural and kernel-reducible. -/
def goReplaceAllAux (o : Char) (os new : List Char) : Nat → List Char → List Char
  | 0, s => s
  | _ + 1, [] => []
  | fuel + 1, c :: cs =>
    match (if o = c then matchAt os cs else none) with
    | some rest => new ++ goReplaceAllAux o os new fuel rest
    | none => c :: goReplaceAllAux o os new fuel cs

/-- Go `strings.Replace(s, old, new, -1)`: replace every non-overlapping
occurrence of `old` in `s` by `new`, in one left-to-right pass.  The
source never calls it with an empty pattern, so that case is the
identity here. -/
def goStrReplaceAll (old new s : String) : String :=
  match old.data with
  | [] => s
  | o :: os => String.mk (goReplaceAllAux o os new.data s.data.length s.data)

/-- Core of Go `strings.Replace(s, old, new, 1)` for a non-empty pattern
`o :: os`: replace only the first occurrence and stop. -/
def goReplaceOnceList (o : Char) (os new : List Char) : List Char → List Char
  | [] => []
  | c :: cs =>
    match (if o = c then matchAt os cs else none) with
    | some rest => new ++ rest
    | none => c :: goReplaceOnceList o os new cs

/-- Go `strings.Replace(s, old, new, 1)`: replace the first occurrence of
`old` in `s` by `new`.  Never called with an empty pattern. -/
def goStrReplaceOnce (old new s : String) : String :=
  match old.data with
  | [] => s
  | o :: os => String.mk (goReplaceOnceList o os new.data s.data)

/-- Left-pads a string with zeros to the given width (used by the
fixed-width numeric fields of Go time and float formatting). -/
def padZeros (w : Nat) (s : String) : String :=
  String.mk (List.replicate (w - s.length) (Char.ofNat 48)) ++ s

/-- A native Go temporal value (`time.Time`), reduced to the calendar
fields that the layouts `2006-01-02` and `2006-01-02 15:04:05` read. -/
structure GoTime where
  year : Nat
  month : Nat
  day : Nat
  hour : Nat
  minute : Nat
  second : Nat
deriving DecidableEq, Repr

/-- Go `t.Format("2006-01-02")`: zero-padded year-month-day. -/
def goFormatDate (t : GoTime) : String :=
  padZeros 4 (toString t.year) ++ "-" ++ padZeros 2 (toString t.month) ++ "-"
    ++ padZeros 2 (toString t.day)

/-- Go `t.Format("2006-01-02 15:04:05")`. -/
def goFormatDateTime (t : GoTime) : String :=
  goFormatDate t ++ " " ++ padZeros 2 (toString t.hour) ++ ":"
    ++ padZeros 2 (toString t.minute) ++ ":" ++ padZeros 2 (toString t.second)

/-- A runtime cell value as scanned from the driver into an
`interface\x7b\x7d`: the `nil` marker, a `[]byte` payload (modelled by
the string of its bytes, which is exactly how the dump consumes it via
`string(bs)` and `%s`), a native `int64`, a native `float64` (every
binary64 value is `m * 2^(-k)`, stored here as the exact pair `(m, k)`),
a native `time.Time`, or a native `bool`. -/
inductive GoValue where
  | null
  | bytes (s : String)
  | int (n : Int)
  | float (m : Int) (k : Nat)
  | time (t : GoTime)
  | boolean (b : Bool)
deriving DecidableEq, Repr

/-- The Go dynamic type name of a value, as printed inside the bad-verb
markers of the `fmt` package. -/
def GoValue.goTypeName : GoValue → String
  | .null => "<nil>"
  | .bytes _ => "[]uint8"
  | .int _ => "int64"
  | .float _ _ => "float64"
  | .time _ => "time.Time"
  | .boolean _ => "bool"

/-- Go `fmt.Sprintf("%d", v)`: base-10 for an integer.  On any other
dynamic type `fmt` emits a bad-verb marker (`%!d(float64=...)`); the
value part of that marker is elided because the integer branch of the
dump only reaches `%d` after the `[]byte` case has been peeled off, and
the driver delivers integer columns as `[]byte` or `int64` only. -/
def goSprintfD : GoValue → String
  | .int n => toString n
  | v => "%!d(" ++ v.goTypeName ++ ")"

/-- Go `fmt.Sprintf("%f", x)` on a `float64` equal to `m * 2^(-k)`:
round the value to the nearest multiple of `10^(-6)` and print it in
fixed notation with exactly six fractional digits.  An exact tie is
impossible for a binary64 value (it would force a factor `5^6` into
a power-of-two denominator), so the tie-breaking direction of this
floor-based rounding never matters. -/
def goFixed6 (m : Int) (k : Nat) : String :=
  let scaled : Int := Int.fdiv (2 * m * 1000000 + 2 ^ k) (2 ^ (k + 1))
  let a := scaled.natAbs
  (if scaled < 0 then "-" else "") ++ toString (a / 1000000) ++ "."
    ++ padZeros 6 (toString (a % 1000000))

/-- Go `fmt.Sprintf("%f", v)` on a dynamic value: fixed-notation for a
`float64`, bad-verb marker otherwise (value part elided, as in
`goSprintfD`). -/
def goSprintfF : GoValue → String
  | .float m k => goFixed6 m k
  | v => "%!f(" ++ v.goTypeName ++ ")"

/-- Go `fmt.Sprintf("%s", v)`: a `[]byte` prints as the string of its
bytes.  Every `%s` site in the dump (DECIMAL, CHAR/TEXT, ENUM/SET,
JSON) receives driver values that are `[]byte`; other dynamic types are
condensed to a bad-verb-style marker carrying the type name. -/
def goSprintfS : GoValue → String
  | .bytes s => s
  | v => "%!s(" ++ v.goTypeName ++ ")"

/-- Uppercase hexadecimal digits of a natural number (Go `%X`). -/
def hexNat (n : Nat) : String :=
  String.mk ((Nat.toDigits 16 n).map Char.toUpper)

/-- Uppercase hexadecimal of one byte, zero-padded to two digits. -/
def hexByte (b : UInt8) : String :=
  padZeros 2 (hexNat b.toNat)

/-- Go `fmt.Sprintf("%X", v)`: a `[]byte` prints as two uppercase hex
digits per byte; an integer as its uppercase hex form; other dynamic
types as a marker. -/
def goSprintfX : GoValue → String
  | .bytes s => String.join (s.toUTF8.toList.map hexByte)
  | .int n => (if n < 0 then "-" else "") ++ hexNat n.natAbs
  | v => "%!X(" ++ v.goTypeName ++ ")"

/-- Line 312-313 of the source: strip every occurrence of the literal
`UNSIGNED` and every space character from a reported column type name
(`strings.Replace(Type, "UNSIGNED", "", -1)` then
`strings.Replace(Type, " ", "", -1)`). -/
def goNormalizeType (t : String) : String :=
  goStrReplaceAll " " "" (goStrReplaceAll "UNSIGNED" "" t)

/-- The integer case labels of the `switch` (line 315). -/
def intTypeNames : List String :=
  ["TINYINT", "SMALLINT", "MEDIUMINT", "INT", "INTEGER", "BIGINT"]

/-- The float case labels (line 321). -/
def floatTypeNames : List String := ["FLOAT", "DOUBLE"]

/-- The fixed-decimal case labels (line 327). -/
def decTypeNames : List String := ["DECIMAL", "DEC"]

/-- The text case labels (line 365). -/
def textTypeNames : List String :=
  ["CHAR", "VARCHAR", "TINYTEXT", "TEXT", "MEDIUMTEXT", "LONGTEXT"]

/-- The binary case labels (line 367). -/
def binTypeNames : List String :=
  ["BIT", "BINARY", "VARBINARY", "TINYBLOB", "BLOB", "MEDIUMBLOB", "LONGBLOB"]

/-- The enum/set case labels (line 369). -/
def enumTypeNames : List String := ["ENUM", "SET"]

/-- The boolean case labels (line 371). -/
def boolTypeNames : List String := ["BOOL", "BOOLEAN"]

/-- Every normalized type name carrying a `case` label in the `switch`;
anything else falls into the `default` arm. -/
def knownTypeNames : List String :=
  intTypeNames ++ floatTypeNames ++ decTypeNames
    ++ ["DATE", "DATETIME", "TIMESTAMP", "TIME", "YEAR"]
    ++ textTypeNames ++ binTypeNames ++ enumTypeNames ++ boolTypeNames
    ++ ["JSON"]

/-- Quote escaping of the text branch (line 366):
`strings.Replace(x, single-quote, two single-quotes, -1)`. -/
def sqEscape (s : String) : String :=
  goStrReplaceAll qs (qs ++ qs) s

/-- Outcome of rendering one cell, following the control flow of the
loop body at lines 306-384: a literal appended to the statement, the
`return err` of a temporal/raw conversion mismatch (at that point the
local `err` is necessarily `nil`: every earlier assignment to it was
followed by an early return when non-nil), the `fmt.Errorf` of the
`default` arm, or the run-time panic of the unchecked `col.(bool)`
assertion. -/
inductive CellResult where
  | lit (s : String)
  | convErrNil
  | unsupported (t : String)
  | crashed
deriving DecidableEq, Repr

/-- The body of the per-column loop (lines 306-384): the `nil` check
comes first and yields the literal `NULL` before any type inspection;
otherwise the column type name is normalized and dispatched. -/
def renderCell (rawType : String) (col : GoValue) : CellResult :=
  match col with
  | .null => .lit "NULL"
  | col =>
    let T := goNormalizeType rawType
    if T ∈ intTypeNames then
      match col with
      | .bytes bs => .lit bs
      | c => .lit (goSprintfD c)
    else if T ∈ floatTypeNames then
      match col with
      | .bytes bs => .lit bs
      | c => .lit (goSprintfF c)
    else if T ∈ decTypeNames then .lit (goSprintfS col)
    else if T = "DATE" then
      match col with
      | .time t => .lit (qs ++ goFormatDate t ++ qs)
      | _ => .convErrNil
    else if T = "DATETIME" then
      match col with
      | .time t => .lit (qs ++ goFormatDateTime t ++ qs)
      | _ => .convErrNil
    else if T = "TIMESTAMP" then
      match col with
      | .time t => .lit (qs ++ goFormatDateTime t ++ qs)
      | _ => .convErrNil
    else if T = "TIME" then
      match col with
      | .bytes bs => .lit (qs ++ bs ++ qs)
      | _ => .convErrNil
    else if T = "YEAR" then
      match col with
      | .bytes bs => .lit bs
      | _ => .convErrNil
    else if T ∈ textTypeNames then .lit (qs ++ sqEscape (goSprintfS col) ++ qs)
    else if T ∈ binTypeNames then .lit ("0x" ++ goSprintfX col)
    else if T ∈ enumTypeNames then .lit (qs ++ goSprintfS col ++ qs)
    else if T ∈ boolTypeNames then
      match col with
      | .boolean b => .lit (if b then "true" else "false")
      | _ => .crashed
    else if T = "JSON" then .lit (qs ++ goSprintfS col ++ qs)
    else .unsupported T

/-- How a whole row can fail: the three non-literal outcomes of
`CellResult`. -/
inductive RowErr where
  | convErrNil
  | unsupported (t : String)
  | crashed
deriving DecidableEq, Repr

/-- Renders every cell of a row to its literal, stopping at the first
failing cell — the list-of-literals view of the row loop, used to state
the serializer format theorem.  Cells are paired with their column type
names; `rows.Scan` fills exactly `len(columns)` cells, so the pairing
is lossless. -/
def renderCellList : List (String × GoValue) → Except RowErr (List String)
  | [] => .ok []
  | (t, c) :: rest =>
    match renderCell t c with
    | .lit s =>
      match renderCellList rest with
      | .ok l => .ok (s :: l)
      | .error e => .error e
    | .convErrNil => .error .convErrNil
    | .unsupported ty => .error (.unsupported ty)
    | .crashed => .error .crashed

/-- The per-column loop of lines 306-388, accumulating into `ssql`: each
rendered literal is appended, followed by a comma whenever the column
is not the last one (`i < len(row)-1`). -/
def dumpRowAux : List (String × GoValue) → String → Except RowErr String
  | [], acc => .ok acc
  | (t, c) :: rest, acc =>
    match renderCell t c with
    | .lit s => dumpRowAux rest (acc ++ s ++ (if rest = [] then "" else ","))
    | .convErrNil => .error .convErrNil
    | .unsupported ty => .error (.unsupported ty)
    | .crashed => .error .crashed

/-- One iteration of the row loop (lines 300-389): seed `ssql` with the
`INSERT` or `INSERT IGNORE` prefix, run the column loop, close with
`);` and a newline. -/
def serializeRow (table : String) (cols : List (String × GoValue))
    (ignoreInsert : Bool) : Except RowErr String :=
  let ssql :=
    if ignoreInsert then "INSERT IGNORE INTO `" ++ table ++ "` VALUES ("
    else "INSERT INTO `" ++ table ++ "` VALUES ("
  match dumpRowAux cols ssql with
  | .ok s => .ok (s ++ ");\n")
  | .error e => .error e

/-- Comma-joined concatenation with no trailing comma, the shape the
serializer is proved to produce. -/
def joinComma : List String → String
  | [] => ""
  | [s] => s
  | s :: rest => s ++ "," ++ joinComma rest

/-- Result of a Go function of the dump: either it returned, carrying
the text written to the buffered writer so far and the returned `error`
value (`none` is a `nil` error), or it panicked. -/
inductive GoOutcome where
  | ret (out : String) (err : Option String)
  | crash (out : String)
deriving DecidableEq, Repr

/-- Prefixes already-written output onto an outcome. -/
def GoOutcome.prepend (s : String) : GoOutcome → GoOutcome
  | .ret out e => .ret (s ++ out) e
  | .crash out => .crash (s ++ out)

/-- The comment banner written at the top of a table data section
(lines 261-263). -/
def dataHeader (table : String) : String :=
  "-- ----------------------------\n-- Records of " ++ table
    ++ "\n-- ----------------------------\n"

/-- The row loop of `writeTableData` (lines 299-394).  A successful row
statement is written to the buffer; a conversion mismatch executes
`return err` with the stale local `err`, which is `nil` on that path,
abandoning the row without writing its partial `ssql`; the `default`
arm returns the non-nil `unsupported type` error; a failed `col.(bool)`
assertion panics.  After the last row the trailing blank lines are
written and `nil` is returned. -/
def rowsLoop (table : String) (types : List String) (ig : Bool) :
    List (List GoValue) → GoOutcome
  | [] => .ret "\n\n" none
  | row :: rest =>
    match serializeRow table (types.zip row) ig with
    | .ok s => (rowsLoop table types ig rest).prepend s
    | .error .convErrNil => .ret "" none
    | .error (.unsupported t) => .ret "" (some ("unsupported type: " ++ t))
    | .error .crashed => .crash ""

/-- `writeTableData` (lines 258-395) on an already-fetched result set:
banner, then the row loop. -/
def writeTableDataModel (table : String) (types : List String)
    (rows : List (List GoValue)) (ig : Bool) : GoOutcome :=
  (rowsLoop table types ig rows).prepend (dataHeader table)

/-- Line 214 of `getCreateTableSQL`:
`strings.Replace(sql, "CREATE TABLE", "CREATE TABLE IF NOT EXISTS", 1)`. -/
def goCreateTableRewrite (s : String) : String :=
  goStrReplaceOnce "CREATE TABLE" "CREATE TABLE IF NOT EXISTS" s

/-- A table as fetched from the engine: its name, its `SHOW CREATE
TABLE` statement, its reported column type names, and its rows. -/
structure TableInfo where
  name : String
  createSQL : String
  colTypes : List String
  rows : List (List GoValue)
deriving Repr

/-- The option record built by the `DumpOption` functional options
(lines 20-35). -/
structure DumpOptionModel where
  isData : Bool := false
  tables : List String := []
  ignoreTables : List String := []
  isAllTable : Bool := false
  isDropTable : Bool := false
  isIgnoreInsert : Bool := false
deriving Repr

/-- Table-set resolution of `Dump`: lines 106-109 (an empty inclusion
list turns on `isAllTable`) and lines 148-172 (under `isAllTable`, all
tables minus the exclusion set, the exclusion set realized as a
membership map; otherwise the inclusion list verbatim). -/
def resolveTables (o : DumpOptionModel) (allTables : List String) : List String :=
  let o := if o.tables.length = 0 then { o with isAllTable := true } else o
  if o.isAllTable then
    if o.ignoreTables.length > 0 then
      allTables.filter (fun t => !(o.ignoreTables.contains t))
    else allTables
  else o.tables

/-- `writeTableStruct` (lines 237-254) minus the database fetch: banner,
rewritten create statement, semicolon, blank lines. -/
def tableStructText (t : TableInfo) : String :=
  "-- ----------------------------\n-- Table structure for " ++ t.name
    ++ "\n-- ----------------------------\n"
    ++ goCreateTableRewrite t.createSQL ++ ";" ++ "\n\n" ++ "\n\n"

/-- The per-table loop of `Dump` (lines 175-196): optional `DROP TABLE`,
structure text, then — when data is requested — the data writer, whose
returned error aborts the loop only when it is non-nil. -/
def dumpLoop (o : DumpOptionModel) : List TableInfo → GoOutcome
  | [] => .ret "" none
  | t :: rest =>
    let pre :=
      (if o.isDropTable then "DROP TABLE IF EXISTS `" ++ t.name ++ "`;\n" else "")
        ++ tableStructText t
    if o.isData then
      match writeTableDataModel t.name t.colTypes t.rows o.isIgnoreInsert with
      | .crash dout => .crash (pre ++ dout)
      | .ret dout (some e) => .ret (pre ++ dout) (some e)
      | .ret dout none => (dumpLoop o rest).prepend (pre ++ dout)
    else (dumpLoop o rest).prepend pre

/-- The full text written by `dumpLoop` on a two-table dump whose first
table holds a `DATE` cell delivered as `[]byte`: the first table stops
after its records banner, yet the second table is still fully dumped. -/
def c1Output : String :=
  "-- ----------------------------\n-- Table structure for t1\n-- ----------------------------\nCREATE TABLE IF NOT EXISTS `t1` (d date);\n\n\n\n-- ----------------------------\n-- Records of t1\n-- ----------------------------\n-- ----------------------------\n-- Table structure for t2\n-- ----------------------------\nCREATE TABLE IF NOT EXISTS `t2` (n int);\n\n\n\n-- ----------------------------\n-- Records of t2\n-- ----------------------------\nINSERT INTO `t2` VALUES (7);\n\n\n"

/-- The text written for a table whose column type is `GEOMETRY` before
the data dump aborts with the unsupported-type error. -/
def geoAbortOut : String :=
  "-- ----------------------------\n-- Table structure for g\n-- ----------------------------\nCREATE TABLE IF NOT EXISTS `g` (p geometry);\n\n\n\n-- ----------------------------\n-- Records of g\n-- ----------------------------\n"

/-! Helper lemmas about the embedded string primitives. -/

/-- Matching a pattern against itself followed by anything succeeds and
returns the tail. -/
theorem matchAt_append (os t : List Char) : matchAt os (os ++ t) = some t := by
  induction os with
  | nil => rfl
  | cons o os ih => simp [matchAt, ih]

/-- Replace-once fires on a pattern sitting at the front of the string
and leaves the remainder untouched. -/
theorem replaceOnce_at_front (o : Char) (os new t : List Char) :
    goReplaceOnceList o os new (o :: (os ++ t)) = new ++ t := by
  simp [goReplaceOnceList, matchAt_append]

/-- For a one-character pattern, replace-all is exactly a per-character
substitution: every occurrence of the character becomes `new`, every
other character is kept unchanged. -/
theorem goReplaceAllAux_single (q : Char) (new : List Char) :
    ∀ (l : List Char) (fuel : Nat), l.length ≤ fuel →
      goReplaceAllAux q [] new fuel l
        = l.flatMap (fun c => if c = q then new else [c])
  | [], fuel, _ => by cases fuel <;> rfl
  | c :: cs, 0, h => absurd h (by simp)
  | c :: cs, fuel + 1, h => by
    have ih := goReplaceAllAux_single q new cs fuel (Nat.le_of_succ_le_succ h)
    by_cases hc : q = c
    · subst hc
      simp [goReplaceAllAux, matchAt, ih]
    · simp [goReplaceAllAux, hc, Ne.symm hc, ih]

/-- One unfolding step of the column loop on a non-empty row. -/
theorem dumpRowAux_cons (t : String) (c : GoValue)
    (rest : List (String × GoValue)) (acc : String) :
    dumpRowAux ((t, c) :: rest) acc =
      match renderCell t c with
      | .lit s => dumpRowAux rest (acc ++ s ++ (if rest = [] then "" else ","))
      | .convErrNil => .error .convErrNil
      | .unsupported ty => .error (.unsupported ty)
      | .crashed => .error .crashed := rfl

/-- A successful literal list has one literal per column. -/
theorem renderCellList_length :
    ∀ {cols : List (String × GoValue)} {lits : List String},
      renderCellList cols = Except.ok lits → lits.length = cols.length
  | [], lits, h => by
    injection h with h
    simp [← h]
  | (t, c) :: rest, lits, h => by
    simp only [renderCellList] at h
    cases hc : renderCell t c <;> simp [hc] at h
    case lit s =>
      cases hr : renderCellList rest <;> simp [hr] at h
      case ok l =>
        simp [← h, renderCellList_length hr]

/-- The accumulating column loop, on a row all of whose cells render,
produces the comma-joined literals appended to the accumulator. -/
theorem dumpRowAux_ok :
    ∀ (cols : List (String × GoValue)) (lits : List String),
      renderCellList cols = Except.ok lits →
      ∀ acc : String, dumpRowAux cols acc = Except.ok (acc ++ joinComma lits)
  | [], lits, h => by
    injection h with h
    intro acc
    simp [← h, dumpRowAux, joinComma]
  | (t, c) :: rest, lits, h => by
    simp only [renderCellList] at h
    cases hc : renderCell t c <;> simp [hc] at h
    case lit s =>
      cases hr : renderCellList rest <;> simp [hr] at h
      case ok l =>
        intro acc
        cases rest with
        | nil =>
          injection hr with hr
          simp [← h, ← hr, dumpRowAux_cons, hc, dumpRowAux, joinComma]
        | cons p ps =>
          have hlen := renderCellList_length hr
          cases l with
          | nil => simp at hlen
          | cons x xs =>
            have ih := dumpRowAux_ok (p :: ps) (x :: xs) hr (acc ++ s ++ ",")
            rw [dumpRowAux_cons, hc]
            simp only [reduceCtorEq, if_false]
            rw [ih, ← h]
            simp [joinComma, String.append_assoc]

/-! Claim theorems. -/

/-- Claim C10: the `nil` check at line 307 precedes the type switch, so
a null cell renders as the bare word `NULL` no matter what the reported
column type name is — even one, like `GEOMETRY`, that the switch does
not know — and a whole row holding such a cell still serializes.  The
unsupported-type error can only arise from a non-null cell. -/
theorem null_before_classification :
    (∀ ty : String, renderCell ty GoValue.null = CellResult.lit "NULL") ∧
    serializeRow "t" [("GEOMETRY", GoValue.null)] false
      = Except.ok "INSERT INTO `t` VALUES (NULL);\n" :=
  ⟨fun _ => rfl, rfl⟩

/-- Claim C9: for a `BOOL` or `BOOLEAN` column, a non-null cell that is
not a native boolean hits the unchecked assertion `col.(bool)` at line
372, which panics instead of producing the error return that every
other category uses for a representation mismatch. -/
theorem boolMismatch_crashes (v : GoValue) (hn : v ≠ GoValue.null)
    (hb : ∀ b, v ≠ GoValue.boolean b) :
    renderCell "BOOL" v = CellResult.crashed ∧
    renderCell "BOOLEAN" v = CellResult.crashed := by
  cases v with
  | null => exact absurd rfl hn
  | boolean b => exact absurd rfl (hb b)
  | bytes s => exact ⟨rfl, rfl⟩
  | int n => exact ⟨rfl, rfl⟩
  | float m k => exact ⟨rfl, rfl⟩
  | time t => exact ⟨rfl, rfl⟩

/-- Witness for the claim C9 theorem at the concrete value `[]byte "1"`,
which is how the engine actually delivers a boolean column without the
driver mapping it to `bool`. -/
theorem boolMismatch_crashes_witness :
    renderCell "BOOL" (GoValue.bytes "1") = CellResult.crashed ∧
    renderCell "BOOLEAN" (GoValue.bytes "1") = CellResult.crashed :=
  boolMismatch_crashes (GoValue.bytes "1") (by decide) (fun b => by cases b <;> decide)

/-- Claim C8: `getCreateTableSQL` rewrites with
`strings.Replace(sql, "CREATE TABLE", "CREATE TABLE IF NOT EXISTS", 1)`,
a count-1 replace: on any statement beginning with `CREATE TABLE` — as
every `SHOW CREATE TABLE` result does — exactly the leading occurrence
is rewritten and the remainder of the statement is reproduced verbatim,
so a later literal `CREATE TABLE` (say inside a column comment in
`rest`) is untouched. -/
theorem createTableRewrite_first (rest : String) :
    goCreateTableRewrite ("CREATE TABLE" ++ rest)
      = "CREATE TABLE IF NOT EXISTS" ++ rest := by
  have hd : ("CREATE TABLE" ++ rest).data
      = 'C' :: ("REATE TABLE".data ++ rest.data) := by
    rw [String.data_append]
    rfl
  show String.mk (goReplaceOnceList 'C' "REATE TABLE".data
      "CREATE TABLE IF NOT EXISTS".data ("CREATE TABLE" ++ rest).data)
    = "CREATE TABLE IF NOT EXISTS" ++ rest
  rw [hd, replaceOnce_at_front, ← String.data_append]

/-- Claim C2, counterexample: the logical value three halves, delivered
by the text protocol as the bytes `1.5` and by the binary protocol as
the native `float64` with mantissa 3 and exponent -1, renders to two
different strings: the byte path is verbatim while the native path is
`fmt` fixed notation with six forced fractional digits. -/
theorem floatBytesNative_differ :
    renderCell "FLOAT" (GoValue.bytes "1.5") = CellResult.lit "1.5" ∧
    renderCell "FLOAT" (GoValue.float 3 1) = CellResult.lit "1.500000" ∧
    ("1.5" : String) ≠ "1.500000" := by
  refine ⟨by decide, by decide, by decide⟩

/-- Claim C2 as amended: the byte-sequence and native paths do produce
byte-identical output for every logical integer value (the driver
delivers an integer as its canonical base-10 byte string, emitted
verbatim, and `%d` prints the native value in base 10), while for
floats the native path always emits fixed six-fractional-digit
notation, so the two float paths agree only when the byte form already
has that shape. -/
theorem intBytesNative_agree (ty : String) (n : Int)
    (h : goNormalizeType ty ∈ intTypeNames) :
    renderCell ty (GoValue.bytes (toString n)) = CellResult.lit (toString n) ∧
    renderCell ty (GoValue.int n) = CellResult.lit (toString n) := by
  constructor <;> simp [renderCell, h, goSprintfD]

/-- Witness for the claim C2 amended theorem at the reported type name
`INT UNSIGNED` and the value 42. -/
theorem intBytesNative_agree_witness :
    renderCell "INT UNSIGNED" (GoValue.bytes (toString (42 : Int)))
        = CellResult.lit (toString (42 : Int)) ∧
    renderCell "INT UNSIGNED" (GoValue.int 42)
        = CellResult.lit (toString (42 : Int)) :=
  intBytesNative_agree "INT UNSIGNED" 42 (by decide)

/-- Claim C7, counterexample: the normalization at lines 312-313 uses
the case-sensitive `strings.Replace`, so the lowercase spelling
`unsigned` is not stripped: `INT unsigned` normalizes to
`INTunsigned`, not to `INT`, and classification then lands in the
`default` arm instead of the integer category. -/
theorem normalize_caseSensitive_cex :
    goNormalizeType "INT unsigned" = "INTunsigned" ∧
    goNormalizeType "INT unsigned" ≠ "INT" ∧
    renderCell "INT unsigned" (GoValue.int 1)
      = CellResult.unsupported "INTunsigned" := by
  refine ⟨by decide, by decide, by decide⟩

/-- Claim C7 as amended: normalization deletes, in one left-to-right
pass, each occurrence of the exact uppercase substring `UNSIGNED`
together with every space character — case-sensitively, and only the
space character, not all whitespace.  For every type name the engine
actually reports (the uppercase names of the switch), both the bare
name and the name with an ` UNSIGNED` qualifier normalize to the bare
name. -/
theorem normalize_strips_upperUnsigned :
    ∀ T ∈ knownTypeNames,
      goNormalizeType (T ++ " UNSIGNED") = T ∧ goNormalizeType T = T := by
  decide

/-- Witness for the claim C7 amended theorem at `INT`. -/
theorem normalize_strips_upperUnsigned_witness :
    goNormalizeType ("INT" ++ " UNSIGNED") = "INT" ∧
    goNormalizeType "INT" = "INT" :=
  normalize_strips_upperUnsigned "INT" (by decide)

/-- Claim C5: for a Text-category column, a cell delivered as bytes is
rendered as the string form wrapped in single quotes, where every
single-quote character is doubled and every other character passes
through unchanged — the right-hand side maps each character to itself
except the quote, which becomes two quotes, so no other escaping or
alteration happens. -/
theorem renderText_quoteDoubling (ty s : String)
    (h : goNormalizeType ty ∈ textTypeNames) :
    renderCell ty (GoValue.bytes s)
      = CellResult.lit (qs ++ String.mk
          (s.data.flatMap (fun c => if c = qc then [qc, qc] else [c])) ++ qs) := by
  have hesc : sqEscape s
      = String.mk (s.data.flatMap (fun c => if c = qc then [qc, qc] else [c])) := by
    show String.mk (goReplaceAllAux qc [] (qs ++ qs).data s.data.length s.data) = _
    rw [goReplaceAllAux_single qc (qs ++ qs).data s.data s.data.length (Nat.le_refl _)]
    rfl
  simp only [textTypeNames, List.mem_cons, List.not_mem_nil, or_false] at h
  rcases h with h | h | h | h | h | h <;>
    simp [renderCell, h, goSprintfS, hesc, intTypeNames, floatTypeNames,
      decTypeNames, textTypeNames, binTypeNames, enumTypeNames, boolTypeNames]

/-- Witness for the claim C5 theorem at a `VARCHAR` cell whose bytes
contain a single quote. -/
theorem renderText_quoteDoubling_witness :
    renderCell "VARCHAR" (GoValue.bytes ("O" ++ qs ++ "Brien"))
      = CellResult.lit (qs ++ String.mk
          (("O" ++ qs ++ "Brien").data.flatMap
            (fun c => if c = qc then [qc, qc] else [c])) ++ qs) :=
  renderText_quoteDoubling "VARCHAR" ("O" ++ qs ++ "Brien") (by decide)

/-- Claim C4: on a row all of whose cells render (nulls render as the
bare word `NULL` by the claim C10 theorem), the serializer emits
exactly the `INSERT INTO` — or, uniformly for the table, `INSERT
IGNORE INTO` — prefix with the backquoted table name, then the
literals joined by commas with no trailing comma, then the closing
parenthesis, semicolon and newline. -/
theorem serializeRow_format (table : String) (cols : List (String × GoValue))
    (ig : Bool) (lits : List String)
    (h : renderCellList cols = Except.ok lits) :
    serializeRow table cols ig =
      Except.ok ((if ig then "INSERT IGNORE INTO `" ++ table ++ "` VALUES ("
          else "INSERT INTO `" ++ table ++ "` VALUES (")
        ++ joinComma lits ++ ");\n") := by
  simp [serializeRow, dumpRowAux_ok cols lits h, String.append_assoc]

/-- Witness for the claim C4 theorem: the spec scenario-3 row with a
null first column. -/
theorem serializeRow_format_witness :
    serializeRow "t" [("INT", GoValue.int 1), ("VARCHAR", GoValue.bytes "x"),
        ("VARCHAR", GoValue.null)] false
      = Except.ok ((if false then "INSERT IGNORE INTO `" ++ "t" ++ "` VALUES ("
            else "INSERT INTO `" ++ "t" ++ "` VALUES (")
          ++ joinComma ["1", qs ++ "x" ++ qs, "NULL"] ++ ");\n") :=
  serializeRow_format "t"
    [("INT", GoValue.int 1), ("VARCHAR", GoValue.bytes "x"),
      ("VARCHAR", GoValue.null)]
    false ["1", qs ++ "x" ++ qs, "NULL"] rfl

/-- Claim C3, counterexample: the option combination `WithTables("a")`
plus `WithAllTable()` is expressible, and there `isAllTable` — not the
non-empty inclusion list — decides the table set (the source comments
on lines 23 and 67 state this priority): with tables `a` and `b`
available, the resolved set is both tables, not the inclusion list
`[a]`, so a given non-empty inclusion list does not by itself determine
the tables dumped. -/
theorem allTableFlag_overrides_includeList :
    resolveTables { tables := ["a"], isAllTable := true } ["a", "b"] = ["a", "b"] ∧
    (["a", "b"] : List String) ≠ ["a"] := by
  refine ⟨by decide, by decide⟩

/-- Claim C3 as amended: the all-tables flag dominates the inclusion
list, which dominates the exclusion list.  When the flag is off and the
inclusion list is non-empty, the inclusion list alone determines the
set; when the inclusion list is empty (the flag is then forced on) or
the flag is explicitly on, the set is all tables minus the exclusion
list. -/
theorem resolveTables_precedence (o : DumpOptionModel) (all : List String) :
    (o.isAllTable = false → o.tables ≠ [] → resolveTables o all = o.tables) ∧
    (o.tables = [] →
      resolveTables o all = all.filter (fun t => !(o.ignoreTables.contains t))) ∧
    (o.isAllTable = true →
      resolveTables o all = all.filter (fun t => !(o.ignoreTables.contains t))) := by
  refine ⟨?_, ?_, ?_⟩
  · intro h1 h2
    have hl : ¬(o.tables.length = 0) := by
      simpa [List.length_eq_zero] using h2
    simp [resolveTables, hl, h1]
  · intro h2
    have hl : o.tables.length = 0 := by simp [h2]
    cases hig : o.ignoreTables with
    | nil =>
      simp [resolveTables, hl, hig]
    | cons a as => simp [resolveTables, hl, hig]
  · intro h3
    by_cases hl : o.tables.length = 0
    · cases hig : o.ignoreTables with
      | nil =>
        simp [resolveTables, hl, hig]
      | cons a as => simp [resolveTables, hl, hig]
    · cases hig : o.ignoreTables with
      | nil =>
        simp [resolveTables, hl, h3, hig]
      | cons a as => simp [resolveTables, hl, h3, hig]

/-- Witness for the claim C3 amended theorem: a lone inclusion list is
honoured, and an exclusion list filters an all-tables dump (the spec
scenario-4 combination). -/
theorem resolveTables_precedence_witness :
    resolveTables { tables := ["a"] } ["a", "b"] = ["a"] ∧
    resolveTables { ignoreTables := ["t"] } ["a", "t", "b"]
      = (["a", "t", "b"] : List String).filter
          (fun t => !((["t"] : List String).contains t)) :=
  ⟨(resolveTables_precedence { tables := ["a"] } ["a", "b"]).1 rfl (by decide),
    (resolveTables_precedence { ignoreTables := ["t"] } ["a", "t", "b"]).2.1 rfl⟩

/-- Claim C6: a non-null cell whose normalized column type name matches
none of the known case labels falls into the `default` arm, which
returns the non-nil `unsupported type` error; that error propagates out
of `writeTableData` and makes the `Dump` loop return at once, so no
later table is processed (the remainder list never contributes to the
outcome) and nothing of the row is silently skipped. -/
theorem unsupportedType_aborts :
    (∀ (ty : String) (v : GoValue), v ≠ GoValue.null →
      goNormalizeType ty ∉ knownTypeNames →
      renderCell ty v = CellResult.unsupported (goNormalizeType ty)) ∧
    (∀ rest : List TableInfo,
      dumpLoop { isData := true }
          (⟨"g", "CREATE TABLE `g` (p geometry)", ["GEOMETRY"],
              [[GoValue.bytes "x"]]⟩ :: rest)
        = GoOutcome.ret geoAbortOut (some "unsupported type: GEOMETRY")) := by
  constructor
  · intro ty v hv h
    have sInt : ∀ x ∈ intTypeNames, x ∈ knownTypeNames := by decide
    have sFloat : ∀ x ∈ floatTypeNames, x ∈ knownTypeNames := by decide
    have sDec : ∀ x ∈ decTypeNames, x ∈ knownTypeNames := by decide
    have sText : ∀ x ∈ textTypeNames, x ∈ knownTypeNames := by decide
    have sBin : ∀ x ∈ binTypeNames, x ∈ knownTypeNames := by decide
    have sEnum : ∀ x ∈ enumTypeNames, x ∈ knownTypeNames := by decide
    have sBool : ∀ x ∈ boolTypeNames, x ∈ knownTypeNames := by decide
    have h1 : goNormalizeType ty ∉ intTypeNames := fun hm => h (sInt _ hm)
    have h2 : goNormalizeType ty ∉ floatTypeNames := fun hm => h (sFloat _ hm)
    have h3 : goNormalizeType ty ∉ decTypeNames := fun hm => h (sDec _ hm)
    have h4 : goNormalizeType ty ∉ textTypeNames := fun hm => h (sText _ hm)
    have h5 : goNormalizeType ty ∉ binTypeNames := fun hm => h (sBin _ hm)
    have h6 : goNormalizeType ty ∉ enumTypeNames := fun hm => h (sEnum _ hm)
    have h7 : goNormalizeType ty ∉ boolTypeNames := fun hm => h (sBool _ hm)
    have e1 : ¬(goNormalizeType ty = "DATE") := fun hm => h (by rw [hm]; decide)
    have e2 : ¬(goNormalizeType ty = "DATETIME") := fun hm => h (by rw [hm]; decide)
    have e3 : ¬(goNormalizeType ty = "TIMESTAMP") := fun hm => h (by rw [hm]; decide)
    have e4 : ¬(goNormalizeType ty = "TIME") := fun hm => h (by rw [hm]; decide)
    have e5 : ¬(goNormalizeType ty = "YEAR") := fun hm => h (by rw [hm]; decide)
    have e6 : ¬(goNormalizeType ty = "JSON") := fun hm => h (by rw [hm]; decide)
    cases v with
    | null => exact absurd rfl hv
    | bytes s => simp [renderCell, h1, h2, h3, h4, h5, h6, h7, e1, e2, e3, e4, e5, e6]
    | int n => simp [renderCell, h1, h2, h3, h4, h5, h6, h7, e1, e2, e3, e4, e5, e6]
    | float m k => simp [renderCell, h1, h2, h3, h4, h5, h6, h7, e1, e2, e3, e4, e5, e6]
    | time t => simp [renderCell, h1, h2, h3, h4, h5, h6, h7, e1, e2, e3, e4, e5, e6]
    | boolean b => simp [renderCell, h1, h2, h3, h4, h5, h6, h7, e1, e2, e3, e4, e5, e6]
  · intro rest
    rfl

/-- Witness for the claim C6 theorem: the spec example `GEOMETRY` with a
byte-sequence cell is classified as unsupported. -/
theorem unsupportedType_aborts_witness :
    renderCell "GEOMETRY" (GoValue.bytes "x")
      = CellResult.unsupported (goNormalizeType "GEOMETRY") :=
  unsupportedType_aborts.1 "GEOMETRY" (GoValue.bytes "x") (by decide) (by decide)

set_option maxRecDepth 8192 in
/-- Claim C1 (evidence of the code bug): a `DATE` column whose non-null
cell arrives as `[]byte` (the form the driver uses unless `parseTime`
is on) makes the row loop execute `return err` at line 334 — but every
prior assignment to `err` inside `writeTableData` was followed by an
early return when non-nil, so `err` is `nil` there.  On a two-table
dump whose first table trips this, the model of the `Dump` loop
therefore returns a `nil` error (`none`) and still dumps the second
table in full — visible in `c1Output`, which ends with the records of
`t2` — instead of aborting the whole dump with a non-nil error as the
spec requires. -/
theorem dateMismatch_nilError_dumpContinues :
    dumpLoop { isData := true }
        [⟨"t1", "CREATE TABLE `t1` (d date)", ["DATE"],
            [[GoValue.bytes "2024-01-02"]]⟩,
          ⟨"t2", "CREATE TABLE `t2` (n int)", ["INT"], [[GoValue.int 7]]⟩]
      = GoOutcome.ret c1Output none := by
  decide
